import Mathlib

/-!
Verification of the type-distribution query-and-render component of
`app.py` (a Dash dashboard over a SQLite `pokemon` table).

The embedding below models, statement by statement:
* the data model (`pokemon` rows with a `generation` integer and a
  `type1` string column);
* the SQL text built at app.py lines 42-47 by f-string interpolation;
* the aggregation semantics of that SQL text
  (`SELECT type1, COUNT(*) AS count FROM pokemon WHERE generation = g
  GROUP BY type1`);
* the figure construction of app.py lines 49-54;
* Python name resolution inside the callback body: the module binds
  `sqlite3`, `dash`, `dcc`, `html`, `px` (imports, lines 1-5), `conn`
  (line 8), `app` (line 11) and `update_type_counts` (line 41), and the
  body binds the locals `generation` and `query`; the name `pd` used at
  line 48 is bound nowhere, so evaluating `pd.read_sql_query(query, conn)`
  raises `NameError` before any query reaches the database.
-/

namespace App

/-- A row of the `pokemon` table; only the two columns the program reads. -/
structure PokemonRecord where
  generation : Int
  type1 : String
deriving DecidableEq

/-- Rows selected by the WHERE clause `generation = g` (app.py line 45). -/
def matchingRecords (db : List PokemonRecord) (g : Int) : List PokemonRecord :=
  db.filter (fun r => r.generation == g)

/-- The distinct `type1` values of a row set, as produced by `GROUP BY type1`
(app.py line 46). -/
def distinctTypes (rs : List PokemonRecord) : List String :=
  (rs.map (fun r => r.type1)).dedup

/-- Semantics of the SQL text of app.py lines 42-47:
`SELECT type1, COUNT(*) AS count FROM pokemon WHERE generation = g GROUP BY type1`:
one `(type1, count)` pair per distinct `type1` value among the rows whose
`generation` equals `g`. -/
def typeCounts (db : List PokemonRecord) (g : Int) : List (String × Nat) :=
  (distinctTypes (matchingRecords db g)).map
    (fun t => (t, ((matchingRecords db g).filter (fun r => r.type1 == t)).length))

/-- The chart specification produced by `px.bar` plus `update_layout`
(app.py lines 49-54): a bar mark, axes bound to the `type1` and `count`
columns, interpolated title, fixed axis labels. -/
structure Figure where
  mark : String
  xField : String
  yField : String
  data : List (String × Nat)
  title : String
  xaxisTitle : String
  yaxisTitle : String
deriving DecidableEq

/-- The title f-string of app.py line 51. -/
def titleFor (g : Int) : String :=
  "Distribution of Pokémon Types in Generation " ++ toString g

/-- app.py lines 49-54: `px.bar(df, x='type1', y='count')` followed by
`update_layout(title=..., xaxis_title='Type', yaxis_title='Count')`. -/
def makeFigure (df : List (String × Nat)) (g : Int) : Figure :=
  ⟨"bar", "type1", "count", df, titleFor g, "Type", "Count"⟩

/-- Text before the interpolation hole of the query f-string
(app.py lines 42-45). -/
def queryHead : String :=
  "\n    SELECT type1, COUNT(*) AS count\n    FROM pokemon\n    WHERE generation = "

/-- Text after the interpolation hole of the query f-string
(app.py lines 45-47). -/
def queryTail : String :=
  "\n    GROUP BY type1\n    "

/-- The query text of app.py lines 42-47: the rendered input is spliced
verbatim between `queryHead` and `queryTail`; no validation, no
parameterized placeholder. -/
def buildQuery (g : String) : String :=
  queryHead ++ g ++ queryTail

/-- Names bound at module level of app.py when the callback runs:
the imports of lines 1-5 and the assignments of lines 8, 11 and 41. -/
def moduleGlobals : List String :=
  ["sqlite3", "dash", "dcc", "html", "px", "conn", "app", "update_type_counts"]

/-- Local names bound inside the callback body when line 48 executes:
the parameter `generation` and the local `query`. -/
def localsAtReadStep : List String :=
  ["generation", "query"]

/-- A Python runtime error; only the kind this program can raise on its own. -/
inductive PyError where
  | nameError (n : String)
deriving DecidableEq

/-- Python name resolution: a name either resolves in the environment or
raises `NameError`. -/
def resolveName (env : List String) (n : String) : Except PyError Unit :=
  if n ∈ env then Except.ok () else Except.error (PyError.nameError n)

instance {ε α : Type} [DecidableEq ε] [DecidableEq α] : DecidableEq (Except ε α) :=
  fun x y =>
    match x, y with
    | Except.ok a, Except.ok b =>
        if h : a = b then isTrue (by rw [h])
        else isFalse (by intro hh; cases hh; exact h rfl)
    | Except.error a, Except.error b =>
        if h : a = b then isTrue (by rw [h])
        else isFalse (by intro hh; cases hh; exact h rfl)
    | Except.ok _, Except.error _ => isFalse (by intro hh; cases hh)
    | Except.error _, Except.ok _ => isFalse (by intro hh; cases hh)

/-- Observable outcome of one callback invocation: the returned figure or
the raised error, the queries that actually reached the database
connection, and the stored rows after the call. -/
structure CallResult where
  result : Except PyError Figure
  queriesIssued : List String
  store : List PokemonRecord
deriving DecidableEq

/-- The callback `update_type_counts` of app.py lines 41-55, embedded
statement by statement. Line 42-47 builds the query text from the input.
Line 48 `df = pd.read_sql_query(query, conn)` first resolves the name
`pd`; if that raises, the call ends with the error and no query is
issued. Otherwise the query is issued against the store (its semantics
is `typeCounts`) and lines 49-55 build and return the figure. The body
contains no write to the store in either path. -/
def update_type_counts (env : List String) (db : List PokemonRecord)
    (generation : Int) : CallResult :=
  let query := buildQuery (toString generation)
  match resolveName (localsAtReadStep ++ env) "pd" with
  | Except.error e => ⟨Except.error e, [], db⟩
  | Except.ok _ =>
      ⟨Except.ok (makeFigure (typeCounts db generation) generation), [query], db⟩

/-- A sequence of callback invocations, threading the store from each call
to the next, as the long-lived shared connection of app.py line 8 would. -/
def runSeq (env : List String) (db : List PokemonRecord) :
    List Int → List (Except PyError Figure)
  | [] => []
  | g :: gs =>
      (update_type_counts env db g).result ::
        runSeq env (update_type_counts env db g).store gs

/-- The example store of the spec: three generation-1 rows, two Grass and
one Fire. -/
def exampleStore : List PokemonRecord :=
  [⟨1, "Grass"⟩, ⟨1, "Grass"⟩, ⟨1, "Fire"⟩]

/-!
A small model of how SQLite reads the WHERE clause of the built query,
covering integer comparison literals and `OR`: enough to interpret both
the text produced by a well-formed integer input and the text produced
by an injection-shaped input.
-/

/-- Splits a character list at a separator character, like SQL tokenizing
on that character. -/
def splitChar (sep : Char) : List Char → List Char → List String
  | [], acc => [String.mk acc.reverse]
  | c :: rest, acc =>
      if c = sep then String.mk acc.reverse :: splitChar sep rest []
      else splitChar sep rest (c :: acc)

/-- Whitespace tokens of a string. -/
def tokensOf (s : String) : List String :=
  splitChar (Char.ofNat 32) s.toList []

/-- Reads a run of decimal digits as a number; `none` on a non-digit. -/
def natOfDigits : List Char → Nat → Option Nat
  | [], acc => some acc
  | c :: cs, acc =>
      if c.isDigit then natOfDigits cs (acc * 10 + (c.toNat - 48)) else none

/-- Reads a well-formed SQL integer literal (optional leading minus, one or
more digits); `none` otherwise. -/
def intLit (s : String) : Option Int :=
  match s.toList with
  | [] => none
  | c :: cs =>
      if c = '-' then
        match cs with
        | [] => none
        | _ :: _ => (natOfDigits cs 0).map (fun n => -(n : Int))
      else (natOfDigits (c :: cs) 0).map (fun n => (n : Int))

/-- Whether a string is a well-formed integer literal. -/
def isIntLiteral (s : String) : Bool :=
  (intLit s).isSome

/-- Reads a literal comparison token such as `1=1` as its truth value. -/
def parseEqAtom (t : String) : Option Bool :=
  match splitChar '=' t.toList [] with
  | [a, b] =>
      match intLit a, intLit b with
      | some x, some y => some (x == y)
      | _, _ => none
  | _ => none

/-- Interprets the token list of a WHERE clause as a row predicate:
`generation = n` filters by generation; `generation = n OR lit` also
admits every row when the literal comparison is true. -/
def parseWhere : List String → Option (PokemonRecord → Bool)
  | ["generation", "=", n] =>
      (intLit n).map (fun k => fun r => r.generation == k)
  | ["generation", "=", n, "OR", t] =>
      match intLit n, parseEqAtom t with
      | some k, some b => some (fun r => (r.generation == k) || b)
      | _, _ => none
  | _ => none

/-- The WHERE-clause text of the built query for a rendered input `g`
(app.py line 45): the input is spliced verbatim after `generation = `. -/
def whereClause (g : String) : String :=
  "generation = " ++ g

/-- Whether a row satisfies the WHERE clause the interpolated input
produces; `none` when the clause does not parse. -/
def evalWhere (g : String) (r : PokemonRecord) : Option Bool :=
  (parseWhere (tokensOf (whereClause g))).map (fun c => c r)

/-!
Supporting lemmas about the aggregation semantics: the grouped counts
partition the filtered rows, and the group keys are the distinct `type1`
values of the filtered rows.
-/

theorem sum_count_cons_of_mem {α : Type} [DecidableEq α] (a : α) (l m : List α)
    (hm : m.Nodup) (ham : a ∈ m) :
    (m.map (fun x => (a :: l).count x)).sum = (m.map (fun x => l.count x)).sum + 1 := by
  induction m with
  | nil => cases ham
  | cons b m ihm =>
      rw [List.nodup_cons] at hm
      rcases List.mem_cons.mp ham with hab | ham2
      · subst hab
        have hx : ∀ x ∈ m, (a :: l).count x = l.count x := by
          intro x hxm
          apply List.count_cons_of_ne
          intro hxa
          subst hxa
          exact hm.1 hxm
        rw [List.map_cons, List.sum_cons, List.map_cons, List.sum_cons,
          List.count_cons_self, List.map_congr_left hx]
        omega
      · have hba : b ≠ a := fun h => hm.1 (by rw [h]; exact ham2)
        rw [List.map_cons, List.sum_cons, List.map_cons, List.sum_cons,
          List.count_cons_of_ne hba, ihm hm.2 ham2]
        omega

theorem sum_count_dedup {α : Type} [DecidableEq α] (l : List α) :
    (l.dedup.map (fun a => l.count a)).sum = l.length := by
  induction l with
  | nil => simp
  | cons a l ih =>
      by_cases h : a ∈ l
      · rw [List.dedup_cons_of_mem h,
          sum_count_cons_of_mem a l l.dedup (List.nodup_dedup l) (List.mem_dedup.mpr h),
          ih, List.length_cons]
      · rw [List.dedup_cons_of_not_mem h, List.map_cons, List.sum_cons,
          List.count_cons_self]
        have hx : ∀ x ∈ l.dedup, (a :: l).count x = l.count x := by
          intro x hxd
          apply List.count_cons_of_ne
          intro hxa
          subst hxa
          exact h (List.mem_dedup.mp hxd)
        rw [List.map_congr_left hx, ih, List.length_cons]
        have hz : l.count a = 0 := List.count_eq_zero.mpr h
        omega

theorem filter_type1_length (rs : List PokemonRecord) (t : String) :
    (rs.filter (fun r => r.type1 == t)).length = (rs.map (fun r => r.type1)).count t := by
  rw [← List.countP_eq_length_filter, List.count_eq_countP, List.countP_map]
  rfl

/-- The counts produced by the `GROUP BY` sum to the number of rows the
`WHERE` clause keeps. -/
theorem typeCounts_sum (db : List PokemonRecord) (g : Int) :
    ((typeCounts db g).map Prod.snd).sum = (matchingRecords db g).length := by
  unfold typeCounts distinctTypes
  rw [List.map_map]
  have hc : (Prod.snd ∘ fun t =>
      (t, ((matchingRecords db g).filter (fun r => r.type1 == t)).length)) =
      fun t => ((matchingRecords db g).map (fun r => r.type1)).count t := by
    funext t
    exact filter_type1_length (matchingRecords db g) t
  rw [hc, sum_count_dedup, List.length_map]

/-- The categories of the result are exactly the distinct `type1` values of
the filtered rows. -/
theorem typeCounts_keys (db : List PokemonRecord) (g : Int) :
    (typeCounts db g).map Prod.fst = distinctTypes (matchingRecords db g) := by
  unfold typeCounts
  rw [List.map_map]
  exact List.map_id' _

/-- No category appears twice in the result. -/
theorem typeCounts_keys_nodup (db : List PokemonRecord) (g : Int) :
    ((typeCounts db g).map Prod.fst).Nodup := by
  rw [typeCounts_keys]
  exact List.nodup_dedup _

/-- A `type1` value is a category of the result exactly when some filtered
row has it. -/
theorem mem_typeCounts_keys (db : List PokemonRecord) (g : Int) (t : String) :
    t ∈ (typeCounts db g).map Prod.fst ↔
      t ∈ (matchingRecords db g).map (fun r => r.type1) := by
  rw [typeCounts_keys]
  exact List.mem_dedup

/-- An empty filtered set yields an empty result set. -/
theorem typeCounts_nil (db : List PokemonRecord) (g : Int)
    (h : matchingRecords db g = []) : typeCounts db g = [] := by
  simp [typeCounts, distinctTypes, h]

/-- The store is unchanged by a callback invocation: the body contains no
write in either path. -/
theorem update_store_eq (env : List String) (db : List PokemonRecord) (g : Int) :
    (update_type_counts env db g).store = db := by
  unfold update_type_counts
  cases resolveName (localsAtReadStep ++ env) "pd" <;> rfl

theorem runSeq_concat (env : List String) (db : List PokemonRecord)
    (gs : List Int) (g : Int) :
    runSeq env db (gs ++ [g]) =
      runSeq env db gs ++ [(update_type_counts env db g).result] := by
  induction gs generalizing db with
  | nil => rfl
  | cons x xs ih =>
      simp only [List.cons_append, runSeq, update_store_eq, List.append_eq, ih]

/-!
Claim theorems.
-/

/-- C1. Claimed: for every generation with at least one matching record,
the sum of the counts returned by `update_type_counts` equals the number
of stored records of that generation. The query semantics does satisfy
this sum property (first two conjuncts, at the spec's example store,
whose three records all match generation 1), but the call never returns
any counts: it raises `NameError` at the unbound name `pd` (third
conjunct), so the code contradicts the claim. -/
theorem c1_sum_counts_code_bug :
    ((typeCounts exampleStore 1).map Prod.snd).sum =
      (matchingRecords exampleStore 1).length ∧
    (matchingRecords exampleStore 1).length = 3 ∧
    (update_type_counts moduleGlobals exampleStore 1).result =
      Except.error (PyError.nameError "pd") := by
  decide

/-- C2. Claimed: each distinct `type1` value of the filtered set appears as
exactly one category of the result, no duplicates, none missing. The query
semantics does produce exactly the distinct categories, without duplicates
(first two conjuncts), but `update_type_counts` never returns them: it
raises `NameError` at the unbound name `pd` (third conjunct). -/
theorem c2_distinct_categories_code_bug :
    (typeCounts exampleStore 1).map Prod.fst = ["Grass", "Fire"] ∧
    ((typeCounts exampleStore 1).map Prod.fst).Nodup ∧
    (update_type_counts moduleGlobals exampleStore 1).result =
      Except.error (PyError.nameError "pd") := by
  decide

/-- C3. Claimed: for a generation with zero matching records the call
raises no exception and returns a zero-bar chart. The query semantics does
yield an empty result set for generation 8 (first two conjuncts), but the
call does raise: `NameError` at the unbound name `pd` (third conjunct),
contradicting the no-exception claim. -/
theorem c3_empty_generation_code_bug :
    matchingRecords exampleStore 8 = [] ∧
    typeCounts exampleStore 8 = [] ∧
    (update_type_counts moduleGlobals exampleStore 8).result =
      Except.error (PyError.nameError "pd") := by
  decide

/-- C4. Claimed: on the store {(1, Grass), (1, Grass), (1, Fire)}, querying
generation 1 returns {(Grass, 2), (Fire, 1)}. The query semantics does
produce exactly those pairs (first conjunct), but `update_type_counts`
never returns them: it raises `NameError` at the unbound name `pd`
(second conjunct). -/
theorem c4_example_counts_code_bug :
    typeCounts exampleStore 1 = [("Grass", 2), ("Fire", 1)] ∧
    (update_type_counts moduleGlobals exampleStore 1).result =
      Except.error (PyError.nameError "pd") := by
  decide

/-- C5. Claimed: the returned chart is a bar mark bound to `type1` and
`count`, axis labels `Type` and `Count`, title `Distribution of Pokémon
Types in Generation 8` for input 8. The figure the code would build at
lines 49-54 has exactly those fields (first conjunct), but the call never
reaches them: it raises `NameError` at the unbound name `pd` (second
conjunct), so no chart is returned. -/
theorem c5_figure_fields_code_bug :
    makeFigure (typeCounts exampleStore 8) 8 =
      ⟨"bar", "type1", "count", [],
        "Distribution of Pokémon Types in Generation 8", "Type", "Count"⟩ ∧
    (update_type_counts moduleGlobals exampleStore 8).result =
      Except.error (PyError.nameError "pd") := by
  decide

/-- C6. `update_type_counts` is deterministic and stateless: an invocation
leaves the store unchanged, and the result of querying a generation after
any history of prior invocations equals the result after any other
history, depending only on the store and the generation. -/
theorem c6_stateless_deterministic (db : List PokemonRecord) (g : Int)
    (gs1 gs2 : List Int) :
    (update_type_counts moduleGlobals db g).store = db ∧
    (runSeq moduleGlobals db (gs1 ++ [g])).getLast? =
      (runSeq moduleGlobals db (gs2 ++ [g])).getLast? := by
  refine ⟨update_store_eq _ _ _, ?_⟩
  rw [runSeq_concat, runSeq_concat, List.getLast?_concat, List.getLast?_concat]

/-- C7. Claimed: every invocation issues exactly one read-only query and
performs no writes. The no-write half holds (the store is unchanged), but
no invocation issues any query at all: the `NameError` at the unbound name
`pd` is raised before `pd.read_sql_query(query, conn)` can run, so the
list of issued queries is empty, not of length one. -/
theorem c7_no_query_issued_code_bug (db : List PokemonRecord) (g : Int) :
    (update_type_counts moduleGlobals db g).queriesIssued.length = 0 ∧
    (update_type_counts moduleGlobals db g).store = db :=
  ⟨rfl, update_store_eq _ _ _⟩

/-- C8. `update_type_counts` performs no validation of its input: the
rendered input is spliced verbatim into the query text between the fixed
head and tail (first conjunct). The input `0 OR 1=1` is not a well-formed
integer literal (second conjunct), yet the WHERE clause it produces is
well-formed and selects a generation-2 row that the clause produced by the
honest input `0` rejects (last two conjuncts): the interpolation alters
the meaning of the query, an injection. -/
theorem c8_injection_unvalidated_input :
    (∀ s : String, buildQuery s = queryHead ++ s ++ queryTail) ∧
    isIntLiteral "0 OR 1=1" = false ∧
    evalWhere "0" ⟨2, "Fire"⟩ = some false ∧
    evalWhere "0 OR 1=1" ⟨2, "Fire"⟩ = some true :=
  ⟨fun _ => rfl, by decide, by decide, by decide⟩

/-- C10. The name `pd` used at app.py line 48 is bound neither among the
module-level names nor among the callback's locals, so every invocation of
`update_type_counts`, for every store and every generation, ends with
`NameError` on `pd`, issues no query, and returns no chart
specification. -/
theorem c10_nameError_pd :
    "pd" ∉ moduleGlobals ∧ "pd" ∉ localsAtReadStep ∧
    ∀ (db : List PokemonRecord) (g : Int),
      (update_type_counts moduleGlobals db g).result =
        Except.error (PyError.nameError "pd") ∧
      (update_type_counts moduleGlobals db g).queriesIssued = [] :=
  ⟨by decide, by decide, fun _ _ => ⟨rfl, rfl⟩⟩

end App

